import Mathlib

/-!
Shallow embedding of `acme_lib.py` (the acme-compact library) and proofs
about its specification claims.

Python values that flow through the library are modelled by `PyVal`;
Python exceptions by `Except`-typed results.  Machine-level details that
are delegated to external collaborators (OpenSSL, HTTP transport) are
modelled by explicit parameters carrying the collaborator's answer, so
that each library function becomes a pure function of its inputs and the
scripted external responses.
-/

namespace AcmeCompact

/-- Model of a Python value as it appears in this library: JSON-style data
plus `obj`, which stands for a Python object that is *not* JSON
serializable (such as an `Algorithm` instance, identified by its name). -/
inductive PyVal where
  | str : String → PyVal
  | int : Int → PyVal
  | bool : Bool → PyVal
  | null : PyVal
  | list : List PyVal → PyVal
  | dict : List (String × PyVal) → PyVal
  | obj : String → PyVal

/-- JSON string escaping as performed by Python `json.dumps` (default
`ensure_ascii=True`): quote, backslash and the common control characters
get two-character escapes, other control characters and non-ASCII
characters become `\uXXXX` escapes. -/
def jsonEscapeChar (c : Char) : String :=
  if c = '"' then "\\\""
  else if c = '\\' then "\\\\"
  else if c = '\n' then "\\n"
  else if c = '\r' then "\\r"
  else if c = '\t' then "\\t"
  else if c.toNat < 0x20 ∨ c.toNat > 0x7e then
    "\\u" ++ (Nat.toDigits 16 c.toNat).asString
  else String.singleton c

/-- Render a Python string as a JSON string literal. -/
def jsonString (s : String) : String :=
  "\"" ++ String.join (s.data.map jsonEscapeChar) ++ "\""

/-- Insert a key/value pair into a key-sorted association list (helper for
`json.dumps(..., sort_keys=True)`). -/
def insertKV (kv : String × String) : List (String × String) → List (String × String)
  | [] => [kv]
  | kv' :: rest => if kv.1 ≤ kv'.1 then kv :: kv' :: rest else kv' :: insertKV kv rest

/-- Sort the entries of a Python dict by key, as
`json.dumps(..., sort_keys=True)` does before emitting them. -/
def sortKVs (kvs : List (String × String)) : List (String × String) :=
  kvs.foldr insertKV []

mutual

/-- Model of Python `json.dumps(v, sort_keys=True)`.  Returns `none` when
`json.dumps` raises `TypeError`, which happens exactly when the value
contains a Python object that is not JSON serializable (`PyVal.obj`). -/
def dumps : PyVal → Option String
  | .str s => some (jsonString s)
  | .int n => some (toString n)
  | .bool b => some (if b then "true" else "false")
  | .null => some "null"
  | .list xs =>
    match dumpsList xs with
    | none => none
    | some parts => some ("[" ++ String.intercalate ", " parts ++ "]")
  | .dict kvs =>
    match dumpsKVs kvs with
    | none => none
    | some parts =>
      some ("\x7b" ++
        String.intercalate ", "
          ((sortKVs parts).map (fun kv => jsonString kv.1 ++ ": " ++ kv.2)) ++
        "\x7d")
  | .obj _ => none

/-- Serialize every element of a JSON array; `none` as soon as one element
is not serializable. -/
def dumpsList : List PyVal → Option (List String)
  | [] => some []
  | x :: xs =>
    match dumps x with
    | none => none
    | some s =>
      match dumpsList xs with
      | none => none
      | some ss => some (s :: ss)

/-- Serialize every value of a JSON object, keeping the keys; `none` as
soon as one value is not serializable. -/
def dumpsKVs : List (String × PyVal) → Option (List (String × String))
  | [] => some []
  | (k, v) :: rest =>
    match dumps v with
    | none => none
    | some s =>
      match dumpsKVs rest with
      | none => none
      | some ss => some ((k, s) :: ss)

end

/-- Model of a Python exception, tagged with its class. -/
inductive PyErr where
  | typeError (msg : String)
  | valueError (msg : String)
  | attributeError (msg : String)
deriving DecidableEq, Repr

/-- Python formatting of the status code returned by `_send_signed_request`
(`None` when the transport error carried no status code). -/
def formatOptNat : Option Nat → String
  | none => "None"
  | some n => toString n

/-- The fixed default agreement URL `ca_agreement` from the source. -/
def ca_agreement : String :=
  "https://letsencrypt.org/documents/LE-SA-v1.1.1-August-1-2016.pdf"

/-- The `new-reg` request payload built by `register_account`: resource,
agreement, and the optional `mailto:`/`tel:` contact entries. -/
def new_reg_payload (argreement : String) (email_address telephone : Option String) : PyVal :=
  let contacts : List String :=
    (match email_address with | some e => ["mailto:" ++ e] | none => []) ++
    (match telephone with | some t => ["tel:" ++ t] | none => [])
  .dict ([("resource", .str "new-reg"), ("agreement", .str argreement)] ++
    (if contacts.length > 0 then [("contact", .list (contacts.map .str))] else []))

/-- Model of `register_account`.  `agreement_probe` is the outcome of
`urlopen` on the terms-of-service redirect probe: `Except.ok url` is a
successful response with final URL `url`, `Except.error e` an `IOError`.
`send` scripts `_send_signed_request`, mapping the JSON payload to the
`(code, result)` pair the CA returns.  On probe failure the source's
handler evaluates `e.message`, an attribute a Python 3 `IOError` does not
have, so the handler itself raises `AttributeError`. -/
def register_account (agreement_probe : Except String String)
    (email_address telephone : Option String)
    (send : PyVal → Option Nat × String) : Except PyErr Bool :=
  match agreement_probe with
  | .error _ =>
    .error (.attributeError "IOError object has no attribute message")
  | .ok argreement =>
    let res := send (new_reg_payload argreement email_address telephone)
    if res.1 = some 201 then .ok true
    else if res.1 = some 409 then .ok false
    else .error (.valueError ("Error registering: " ++ formatOptNat res.1 ++ " " ++ res.2))

/-- Model of an `ECC` algorithm object from `_ALGORITHMS`. -/
structure ECC where
  curve : String
  openssl_curve : String
  bitlength : Nat
  jws_algorithm : String
  jws_hash : String
  jws_hash_bytes : Nat
deriving DecidableEq, Repr

/-- `bytelength = (bitlength + 7) // 8` from `ECC.__init__`. -/
def ECC.bytelength (a : ECC) : Nat := (a.bitlength + 7) / 8

/-- The `p-256` entry of `_ALGORITHMS`. -/
def p256 : ECC := ⟨"p-256", "prime256v1", 256, "ES256", "sha256", 32⟩

/-- The `p-384` entry of `_ALGORITHMS`. -/
def p384 : ECC := ⟨"p-384", "secp384r1", 384, "ES384", "sha384", 48⟩

/-- Model of the EC branch of `_send_signed_request`'s signature encoding.
`ders` is the sequence of `prim: INTEGER` values in the `openssl
asn1parse` output of the DER signature, each as its minimal big-endian
magnitude bytes (`asn1parse` prints the magnitude with the DER sign byte
stripped, two upper-case hex digits per byte).  The regex
`prim:\s+INTEGER\s+:([0-9A-F]{2*jws_hash_bytes})\n` keeps exactly the
integers printed with `2*jws_hash_bytes` hex digits; the source raises
unless exactly two remain, and otherwise unhexlifies and concatenates
them. -/
def ec_signature_bytes (alg : ECC) (ders : List (List Nat)) : Option (List Nat) :=
  match ders.filter (fun i => i.length = alg.jws_hash_bytes) with
  | [r, s] => some (r ++ s)
  | _ => none

/-- The character class `[A-Za-z0-9_\-]` of the token-sanitizing regex in
`get_challenge`. -/
def token_char_ok (c : Char) : Bool :=
  ('A' ≤ c && c ≤ 'Z') || ('a' ≤ c && c ≤ 'z') || ('0' ≤ c && c ≤ '9') ||
    c == '_' || c == '-'

/-- Model of `re.sub(r"[^A-Za-z0-9_\-]", "_", token)` in `get_challenge`. -/
def sanitize_token (s : String) : String :=
  (s.data.map (fun c => if token_char_ok c then c else '_')).asString

/-- `get_wellknown_url` from the source. -/
def get_wellknown_url (domain token : String) : String :=
  "http://" ++ domain ++ "/.well-known/acme-challenge/" ++ token

/-- Model of Python `str.strip()` with no argument: remove leading and
trailing whitespace. -/
def pyStrip (s : String) : String :=
  (((s.data.dropWhile Char.isWhitespace).reverse.dropWhile Char.isWhitespace).reverse).asString

/-- Model of `check_challenge`.  `fetch` scripts `urlopen` by URL:
`Except.ok body` is the decoded response body, `Except.error e` an
`IOError`.  The source returns whether the stripped body equals the key
authorization, and `False` on any `IOError`. -/
def check_challenge (domain token : String) (fetch : String → Except String String)
    (keyauthorization : String) : Bool :=
  match fetch (get_wellknown_url domain token) with
  | .ok body => pyStrip body == keyauthorization
  | .error _ => false

/-- The fields of a parsed CA challenge-status response that
`check_challenge_verified` touches: its `status` value and the error
detail it carries. -/
structure ChallengeStatus where
  status : String
  detail : String
deriving DecidableEq, Repr

/-- Outcome of one run of `check_challenge_verified`: `True`, `False`, or
the `ValueError` raised on a failed challenge, carrying the CA's
challenge-status object. -/
inductive PollResult where
  | verified
  | notYet
  | failed (challenge_status : ChallengeStatus)
deriving DecidableEq, Repr

/-- Model of `check_challenge_verified` run against the scripted sequence
`responses` of CA challenge-status responses (one per loop iteration of
the source).  The second component counts the seconds spent in
`time.sleep(2)` calls.  `none` means the scripted responses ran out while
the source would still be looping. -/
def check_challenge_verified (wait : Bool) :
    List ChallengeStatus → Option (PollResult × Nat)
  | [] => none
  | r :: rest =>
    if r.status = "pending" then
      if wait then
        (check_challenge_verified wait rest).map (fun p => (p.1, p.2 + 2))
      else some (.notYet, 0)
    else if r.status = "valid" then some (.verified, 0)
    else some (.failed r, 0)

/-- Python `s.startswith(pre)`: prefix test on the character sequence. -/
def pyStartsWith (s pre : String) : Bool :=
  pre.data.isPrefixOf s.data

/-- Python `s[n:]`: drop the first `n` characters. -/
def pyDrop (s : String) (n : Nat) : String :=
  (s.data.drop n).asString

/-- Python's `<` on strings, on the underlying character lists:
lexicographic comparison of Unicode code points. -/
def charListLt : List Char → List Char → Bool
  | _, [] => false
  | [], _ :: _ => true
  | a :: as, b :: bs =>
    if a.toNat < b.toNat then true
    else if b.toNat < a.toNat then false
    else charListLt as bs

/-- Python's `<` on strings: lexicographic comparison of Unicode code
points. -/
def strLtB (a b : String) : Bool :=
  charListLt a.data b.data

/-- Insert a string into a sorted duplicate-free list, keeping it sorted
and duplicate-free (the model of Python's `sorted(set(...))`). -/
def insertSorted (x : String) : List String → List String
  | [] => [x]
  | y :: ys =>
    if x = y then y :: ys
    else if strLtB x y then x :: y :: ys
    else y :: insertSorted x ys

/-- `sorted(set(l))` in Python: the sorted list of the distinct elements. -/
def sortedDedup (l : List String) : List String :=
  l.foldl (fun acc x => insertSorted x acc) []

/-- Model of `parse_csr`.  The OpenSSL text form of the CSR is modelled by
what the source's regexes extract from it: `common_name` is the Subject
CN capture (when the regex matches) and `san_entries` the comma-split
entries of the Subject Alternative Name lines.  The source collects the
CN and the `DNS:`-prefixed SAN entries (with the prefix dropped) into a
set and returns it sorted. -/
def parse_csr (common_name : Option String) (san_entries : List String) : List String :=
  let domains : List String :=
    (match common_name with | some c => [c] | none => []) ++
      ((san_entries.filter (fun s => pyStartsWith s "DNS:")).map (fun s => pyDrop s 4))
  sortedDedup domains

/-- The fields of one entry of `state['challenges']` built by
`get_challenges` (the CA's raw challenge object is scripted out). -/
structure ChallengeEntry where
  domain : String
  token : String
  keyauthorization : String
deriving DecidableEq, Repr

/-- Model of the token/key-authorization computation of `get_challenge`:
sanitize the CA-issued token, then
`keyauthorization = token + "." + thumbprint`. -/
def get_challenge (raw_token thumbprint : String) : String × String :=
  let token := sanitize_token raw_token
  (token, token ++ "." ++ thumbprint)

/-- Model of the challenge-list construction of `get_challenges`: one
entry per domain of `parse_csr`, in order, with `ca_token` scripting the
raw token of the CA's `new-authz` response for each domain. -/
def get_challenges (common_name : Option String) (san_entries : List String)
    (thumbprint : String) (ca_token : String → String) : List ChallengeEntry :=
  (parse_csr common_name san_entries).map (fun domain =>
    let tk := get_challenge (ca_token domain) thumbprint
    { domain := domain, token := tk.1, keyauthorization := tk.2 })

/-- The state dict returned by `get_challenges` (source line 509).  The
`account_key_algorithm` entry holds the `Algorithm` instance returned by
`parse_account_key` — a Python object, not JSON data — modelled as
`PyVal.obj` carrying the algorithm's name. -/
def get_challenges_state (account_key_type account_key_algorithm account_key : String)
    (header : PyVal) (thumbprint CA : String) (challenges : List PyVal) : PyVal :=
  .dict [("account_key_type", .str account_key_type),
         ("account_key_algorithm", .obj account_key_algorithm),
         ("account_key", .str account_key),
         ("header", header),
         ("thumbprint", .str thumbprint),
         ("CA", .str CA),
         ("challenges", .list challenges)]

/-- Model of `serialize_state`: `json.dumps(state, sort_keys=True)`,
`none` when `json.dumps` raises `TypeError`. -/
def serialize_state (state : PyVal) : Option String :=
  dumps state

/-- `k in result` for the parsed dict entries. -/
def state_has_key (kvs : List (String × PyVal)) (k : String) : Bool :=
  kvs.any (fun kv => kv.1 == k)

/-- Model of the validation stage of `deserialize_state`, applied to the
value parsed by `json.loads`: raise `ValueError("Not a valid serialized
state!")` unless the value is a dict containing all seven required keys. -/
def deserialize_state (v : PyVal) : Except String PyVal :=
  match v with
  | .dict kvs =>
    if state_has_key kvs "account_key" && state_has_key kvs "account_key_type" &&
        state_has_key kvs "account_key_algorithm" && state_has_key kvs "header" &&
        state_has_key kvs "thumbprint" && state_has_key kvs "CA" &&
        state_has_key kvs "challenges" then
      .ok v
    else .error "Not a valid serialized state!"
  | _ => .error "Not a valid serialized state!"

/-- The seven required keys of a serialized session, as the spec lists
them. -/
def required_state_keys : List String :=
  ["account_key", "account_key_type", "account_key_algorithm", "header",
   "thumbprint", "CA", "challenges"]

/-- Spec-side validity of a parsed serialized state: the top-level value
is an object and every required key is present (written from the spec's
words, to be compared with `deserialize_state`). -/
def spec_valid_state (v : PyVal) : Bool :=
  match v with
  | .dict kvs => required_state_keys.all (fun k => state_has_key kvs k)
  | _ => false

/-! ## Helper lemmas -/

theorem char_toNat_inj {a b : Char} (h : a.toNat = b.toNat) : a = b :=
  Char.ext (UInt32.toNat.inj h)

theorem charListLt_iff (as bs : List Char) : charListLt as bs = true ↔ as < bs := by
  induction as generalizing bs with
  | nil =>
    cases bs with
    | nil =>
      constructor
      · intro h; exact absurd h (by simp [charListLt])
      · intro h; cases h
    | cons b bs =>
      constructor
      · intro _; exact List.Lex.nil
      · intro _; rfl
  | cons a as ih =>
    cases bs with
    | nil =>
      constructor
      · intro h; exact absurd h (by simp [charListLt])
      · intro h; cases h
    | cons b bs =>
      by_cases hab : a.toNat < b.toNat
      · constructor
        · intro _; exact List.Lex.rel hab
        · intro _; simp [charListLt, hab]
      · by_cases hba : b.toNat < a.toNat
        · constructor
          · intro h; simp [charListLt, hab, hba] at h
          · intro h
            cases h with
            | cons h' => exact absurd hba (Nat.lt_irrefl _)
            | rel h' => exact absurd h' hab
        · have heq : a = b := char_toNat_inj (Nat.le_antisymm (Nat.le_of_not_lt hba) (Nat.le_of_not_lt hab))
          subst heq
          constructor
          · intro h
            simp only [charListLt, if_neg hab, if_neg hba] at h
            exact List.Lex.cons ((ih bs).mp h)
          · intro h
            cases h with
            | cons h' =>
              simp only [charListLt, if_neg hab, if_neg hba]
              exact (ih bs).mpr h'
            | rel h' => exact absurd h' hab

theorem strLtB_iff (a b : String) : strLtB a b = true ↔ a < b := by
  rw [String.lt_iff_toList_lt]
  exact charListLt_iff a.data b.data

theorem insertSorted_cons_eq {x y : String} (ys : List String) (h : x = y) :
    insertSorted x (y :: ys) = y :: ys := by
  simp [insertSorted, h]

theorem insertSorted_cons_lt {x y : String} (ys : List String) (h : ¬ x = y)
    (h2 : strLtB x y = true) : insertSorted x (y :: ys) = x :: y :: ys := by
  simp [insertSorted, h, h2]

theorem insertSorted_cons_gt {x y : String} (ys : List String) (h : ¬ x = y)
    (h2 : ¬ strLtB x y = true) : insertSorted x (y :: ys) = y :: insertSorted x ys := by
  simp [insertSorted, h, h2]

theorem mem_insertSorted (a x : String) (l : List String) :
    a ∈ insertSorted x l ↔ a = x ∨ a ∈ l := by
  induction l with
  | nil => simp [insertSorted]
  | cons y ys ih =>
    by_cases hxy : x = y
    · subst hxy
      rw [insertSorted_cons_eq ys rfl]
      constructor
      · exact .inr
      · rintro (rfl | h)
        · exact List.mem_cons_self _ _
        · exact h
    · by_cases hlt : strLtB x y = true
      · rw [insertSorted_cons_lt ys hxy hlt]
        simp [List.mem_cons]
      · rw [insertSorted_cons_gt ys hxy hlt]
        simp only [List.mem_cons, ih]
        tauto

theorem pairwise_insertSorted (x : String) (l : List String)
    (h : l.Pairwise (· < ·)) : (insertSorted x l).Pairwise (· < ·) := by
  induction l with
  | nil => simp [insertSorted]
  | cons y ys ih =>
    rw [List.pairwise_cons] at h
    obtain ⟨hy, hys⟩ := h
    by_cases hxy : x = y
    · rw [insertSorted_cons_eq ys hxy]
      exact List.pairwise_cons.mpr ⟨hy, hys⟩
    · by_cases hlt : strLtB x y = true
      · have hxylt : x < y := (strLtB_iff x y).mp hlt
        rw [insertSorted_cons_lt ys hxy hlt]
        rw [List.pairwise_cons]
        refine ⟨?_, List.pairwise_cons.mpr ⟨hy, hys⟩⟩
        intro z hz
        rcases List.mem_cons.mp hz with rfl | hz'
        · exact hxylt
        · exact lt_trans hxylt (hy z hz')
      · have hyx : y < x := by
          have h1 : ¬ x < y := fun hc => hlt ((strLtB_iff x y).mpr hc)
          exact lt_of_le_of_ne (not_lt.mp h1) (Ne.symm hxy)
        rw [insertSorted_cons_gt ys hxy hlt]
        rw [List.pairwise_cons]
        constructor
        · intro z hz
          rcases (mem_insertSorted z x ys).mp hz with rfl | hz'
          · exact hyx
          · exact hy z hz'
        · exact ih hys

theorem mem_foldl_insertSorted (a : String) (l : List String) :
    ∀ acc : List String,
      a ∈ l.foldl (fun acc x => insertSorted x acc) acc ↔ a ∈ acc ∨ a ∈ l := by
  induction l with
  | nil => simp
  | cons x xs ih =>
    intro acc
    simp only [List.foldl_cons, ih, mem_insertSorted, List.mem_cons]
    tauto

theorem pairwise_foldl_insertSorted (l : List String) :
    ∀ acc : List String, acc.Pairwise (· < ·) →
      (l.foldl (fun acc x => insertSorted x acc) acc).Pairwise (· < ·) := by
  induction l with
  | nil =>
    intro acc h
    simpa using h
  | cons x xs ih =>
    intro acc h
    exact ih _ (pairwise_insertSorted x acc h)

theorem pairwise_sortedDedup (l : List String) : (sortedDedup l).Pairwise (· < ·) :=
  pairwise_foldl_insertSorted l [] (by simp)

theorem mem_sortedDedup (a : String) (l : List String) : a ∈ sortedDedup l ↔ a ∈ l := by
  unfold sortedDedup
  rw [mem_foldl_insertSorted]
  simp

theorem nodup_sortedDedup (l : List String) : (sortedDedup l).Nodup :=
  (pairwise_sortedDedup l).imp (fun h => ne_of_lt h)

theorem ccv_pending_run (pre rest : List ChallengeStatus)
    (hpre : ∀ x ∈ pre, x.status = "pending") :
    check_challenge_verified true (pre ++ rest) =
      (check_challenge_verified true rest).map (fun p => (p.1, p.2 + 2 * pre.length)) := by
  induction pre with
  | nil =>
    simp only [List.nil_append, List.length_nil, Nat.mul_zero]
    cases check_challenge_verified true rest with
    | none => rfl
    | some p => simp
  | cons x xs ih =>
    have hx : x.status = "pending" := hpre x (List.mem_cons_self x xs)
    have ih' := ih (fun y hy => hpre y (List.mem_cons_of_mem x hy))
    have hstep : check_challenge_verified true ((x :: xs) ++ rest) =
        (check_challenge_verified true (xs ++ rest)).map (fun p => (p.1, p.2 + 2)) := by
      show (if x.status = "pending" then
          (check_challenge_verified true (xs ++ rest)).map (fun p => (p.1, p.2 + 2))
        else if x.status = "valid" then some (.verified, 0)
        else some (.failed x, 0)) = _
      rw [if_pos hx]
    rw [hstep, ih']
    cases check_challenge_verified true rest with
    | none => rfl
    | some p =>
      simp only [Option.map_some', Option.some.injEq, Prod.mk.injEq, List.length_cons,
        true_and]
      omega

theorem pairwise_parse_csr (cn : Option String) (sans : List String) :
    (parse_csr cn sans).Pairwise (· < ·) :=
  pairwise_sortedDedup _

theorem nodup_parse_csr (cn : Option String) (sans : List String) :
    (parse_csr cn sans).Nodup :=
  nodup_sortedDedup _

/-! ## Claim theorems -/

/-- Claim C5: `parse_csr` returns the list of domains drawn from the
Subject Common Name and the `DNS:` entries of the Subject Alternative
Name extension, deduplicated and sorted in ascending order; in
particular a CSR with CN `example.com` and SANs
`example.com`, `www.example.com` yields exactly
`["example.com", "www.example.com"]`. -/
theorem claim_C5_parse_csr_sorted_dedup :
    (∀ (cn : Option String) (sans : List String),
      (parse_csr cn sans).Pairwise (· < ·) ∧
      (parse_csr cn sans).Nodup ∧
      (∀ d, d ∈ parse_csr cn sans ↔
        cn = some d ∨ ∃ s ∈ sans, pyStartsWith s "DNS:" = true ∧ pyDrop s 4 = d)) ∧
    parse_csr (some "example.com") ["DNS:example.com", "DNS:www.example.com"] =
      ["example.com", "www.example.com"] := by
  refine ⟨fun cn sans => ⟨pairwise_parse_csr cn sans, nodup_parse_csr cn sans, fun d => ?_⟩,
    by decide⟩
  unfold parse_csr
  rw [mem_sortedDedup]
  cases cn with
  | none =>
    simp [List.mem_append, List.mem_map, List.mem_filter, and_assoc]
  | some c =>
    simp only [List.mem_append, List.mem_cons, List.not_mem_nil, or_false,
      List.mem_map, List.mem_filter, Option.some.injEq, and_assoc]
    constructor
    · rintro (heq | h)
      · exact Or.inl heq.symm
      · exact Or.inr h
    · rintro (heq | h)
      · exact Or.inl heq.symm
      · exact Or.inr h

/-- Claim C6: the token sanitization in `get_challenge` replaces every
character outside `[A-Za-z0-9_-]` with an underscore and leaves all other
characters unchanged; in particular the token `ab+c/d` becomes
`ab_c_d`. -/
theorem claim_C6_token_sanitization :
    (∀ (s : String) (i : Nat),
      (sanitize_token s).data[i]? =
        (s.data[i]?).map (fun c => if token_char_ok c then c else '_')) ∧
    sanitize_token "ab+c/d" = "ab_c_d" := by
  refine ⟨fun s i => ?_, by decide⟩
  show (s.data.map fun c => if token_char_ok c then c else '_')[i]? = _
  simp [List.getElem?_map]

/-- Claim C7: the validation stage of `deserialize_state` raises the
`InvalidState` error (`ValueError("Not a valid serialized state!")`) if
and only if the parsed JSON top-level value is not an object or one of
the seven required keys is absent, and otherwise returns the parsed
object unchanged. -/
theorem claim_C7_deserialize_state_validation :
    ∀ v : PyVal,
      deserialize_state v =
        if spec_valid_state v then .ok v else .error "Not a valid serialized state!" := by
  intro v
  cases v <;>
    simp [deserialize_state, spec_valid_state, required_state_keys, List.all,
      Bool.and_assoc]

/-- Claim C2: `register_account` returns `True` when the signed new-reg
request yields HTTP 201, `False` when it yields HTTP 409, and raises an
error carrying the status code and response body for any other status
code. -/
theorem claim_C2_register_account_status :
    ∀ (agreement : String) (email telephone : Option String)
      (send : PyVal → Option Nat × String),
      ((send (new_reg_payload agreement email telephone)).1 = some 201 →
        register_account (.ok agreement) email telephone send = .ok true) ∧
      ((send (new_reg_payload agreement email telephone)).1 = some 409 →
        register_account (.ok agreement) email telephone send = .ok false) ∧
      ((send (new_reg_payload agreement email telephone)).1 ≠ some 201 →
        (send (new_reg_payload agreement email telephone)).1 ≠ some 409 →
        register_account (.ok agreement) email telephone send =
          .error (.valueError ("Error registering: " ++
            formatOptNat (send (new_reg_payload agreement email telephone)).1 ++ " " ++
            (send (new_reg_payload agreement email telephone)).2))) := by
  intro ag email tel send
  refine ⟨fun h => ?_, fun h => ?_, fun h1 h2 => ?_⟩
  · simp [register_account, h]
  · simp [register_account, h]
  · simp [register_account, h1, h2]

/-- Claim C2 witness: concrete CA responses 201, 409 and 500. -/
theorem claim_C2_register_account_status_witness :
    register_account (.ok "A") none none (fun _ => (some 201, "created")) = .ok true ∧
    register_account (.ok "A") none none (fun _ => (some 409, "conflict")) = .ok false ∧
    register_account (.ok "A") none none (fun _ => (some 500, "boom")) =
      .error (.valueError ("Error registering: " ++ formatOptNat (some 500) ++ " " ++ "boom")) := by
  refine ⟨(claim_C2_register_account_status "A" none none _).1 rfl,
    (claim_C2_register_account_status "A" none none _).2.1 rfl, ?_⟩
  exact (claim_C2_register_account_status "A" none none
    (fun _ => (some 500, "boom"))).2.2 (by decide) (by decide)

/-- Claim C8: the source's handler for a failed agreement-URL probe
evaluates `e.message`, which a Python 3 `IOError` does not have, so
`register_account` raises `AttributeError` instead of logging, falling
back to the default agreement URL and proceeding to send the new-reg
request (the result does not depend on `send` because no request is
made). -/
theorem claim_C8_agreement_probe_failure_fatal :
    ∀ (e : String) (email telephone : Option String)
      (send : PyVal → Option Nat × String),
      register_account (.error e) email telephone send =
        .error (.attributeError "IOError object has no attribute message") := by
  intro e email tel send
  rfl

/-- Claim C3: `check_challenge_verified` returns `True` as soon as the CA
status is `valid`, raises `ChallengeFailed` carrying the CA's status
object as soon as the status is anything other than `pending`/`valid`,
returns `False` immediately on `pending` when `wait=False`, and in
blocking mode sleeps a fixed 2 seconds per `pending` response with no
retry limit (the leading run of `pending` responses is arbitrary). -/
theorem claim_C3_check_challenge_verified :
    (∀ (pre : List ChallengeStatus) (r : ChallengeStatus) (rest : List ChallengeStatus),
      (∀ x ∈ pre, x.status = "pending") → r.status = "valid" →
      check_challenge_verified true (pre ++ r :: rest) = some (.verified, 2 * pre.length)) ∧
    (∀ (pre : List ChallengeStatus) (r : ChallengeStatus) (rest : List ChallengeStatus),
      (∀ x ∈ pre, x.status = "pending") → r.status ≠ "pending" → r.status ≠ "valid" →
      check_challenge_verified true (pre ++ r :: rest) = some (.failed r, 2 * pre.length)) ∧
    (∀ (r : ChallengeStatus) (rest : List ChallengeStatus), r.status = "pending" →
      check_challenge_verified false (r :: rest) = some (.notYet, 0)) := by
  refine ⟨?_, ?_, ?_⟩
  · intro pre r rest hpre hr
    rw [ccv_pending_run pre (r :: rest) hpre]
    have h1 : check_challenge_verified true (r :: rest) = some (.verified, 0) := by
      simp [check_challenge_verified, hr]
    rw [h1, Option.map_some']
    simp
  · intro pre r rest hpre hr1 hr2
    rw [ccv_pending_run pre (r :: rest) hpre]
    have h1 : check_challenge_verified true (r :: rest) = some (.failed r, 0) := by
      simp [check_challenge_verified, hr1, hr2]
    rw [h1, Option.map_some']
    simp
  · intro r rest hr
    simp [check_challenge_verified, hr]

/-- Claim C3 witness: two `pending` responses then `valid` (blocking),
`pending` then `invalid` (blocking), and `pending` (non-blocking). -/
theorem claim_C3_check_challenge_verified_witness :
    check_challenge_verified true [⟨"pending", ""⟩, ⟨"pending", ""⟩, ⟨"valid", ""⟩] =
      some (.verified, 4) ∧
    check_challenge_verified true [⟨"pending", ""⟩, ⟨"invalid", "detail"⟩] =
      some (.failed ⟨"invalid", "detail"⟩, 2) ∧
    check_challenge_verified false [⟨"pending", ""⟩] = some (.notYet, 0) := by
  refine ⟨?_, ?_, ?_⟩
  · exact (claim_C3_check_challenge_verified).1
      [⟨"pending", ""⟩, ⟨"pending", ""⟩] ⟨"valid", ""⟩ [] (by decide) rfl
  · exact (claim_C3_check_challenge_verified).2.1
      [⟨"pending", ""⟩] ⟨"invalid", "detail"⟩ [] (by decide) (by decide) (by decide)
  · exact (claim_C3_check_challenge_verified).2.2 ⟨"pending", ""⟩ [] rfl

/-- Claim C4: for the supported EC algorithms the JWS signature encoding
of `_send_signed_request` accepts exactly two DER integers printed at the
full curve byte length (the regex width `2 * jws_hash_bytes` equals
`2 * bytelength` for both curves), outputs their concatenation of exactly
`2 * bytelength` bytes, and fails when the `asn1parse` output does not
contain exactly two such fixed-width integers. -/
theorem claim_C4_ec_signature_encoding :
    ∀ alg : ECC, alg = p256 ∨ alg = p384 →
      alg.jws_hash_bytes = alg.bytelength ∧
      (∀ r s : List Nat, r.length = alg.bytelength → s.length = alg.bytelength →
        ec_signature_bytes alg [r, s] = some (r ++ s) ∧
        (r ++ s).length = 2 * alg.bytelength) ∧
      (∀ r s : List Nat, ¬ (r.length = alg.bytelength ∧ s.length = alg.bytelength) →
        ec_signature_bytes alg [r, s] = none) ∧
      (∀ ders : List (List Nat),
        (ders.filter (fun i => i.length = alg.jws_hash_bytes)).length ≠ 2 →
        ec_signature_bytes alg ders = none) := by
  intro alg halg
  have hb : alg.jws_hash_bytes = alg.bytelength := by
    rcases halg with rfl | rfl <;> rfl
  refine ⟨hb, fun r s hr hs => ?_, fun r s hrs => ?_, fun ders hd => ?_⟩
  · constructor
    · unfold ec_signature_bytes
      rw [hb]
      simp [List.filter, hr, hs]
    · simp [List.length_append, hr, hs, Nat.two_mul]
  · by_cases h1 : r.length = alg.bytelength <;> by_cases h2 : s.length = alg.bytelength
    · exact absurd ⟨h1, h2⟩ hrs
    · unfold ec_signature_bytes
      rw [hb]
      simp [List.filter, h1, h2]
    · unfold ec_signature_bytes
      rw [hb]
      simp [List.filter, h1, h2]
    · unfold ec_signature_bytes
      rw [hb]
      simp [List.filter, h1, h2]
  · have hrw : ec_signature_bytes alg ders =
        (match ders.filter (fun i => i.length = alg.jws_hash_bytes) with
          | [r, s] => some (r ++ s)
          | _ => none) := rfl
    rcases hfl : ders.filter (fun i => i.length = alg.jws_hash_bytes) with
      _ | ⟨a, _ | ⟨b, _ | ⟨c, tl⟩⟩⟩
    · rw [hrw, hfl]
    · rw [hrw, hfl]
    · exact absurd (by rw [hfl]; rfl) hd
    · rw [hrw, hfl]

/-- Claim C4 witness: `p256` with two 32-byte integers. -/
theorem claim_C4_ec_signature_encoding_witness :
    (List.replicate 32 0).length = p256.bytelength ∧
    (List.replicate 32 255).length = p256.bytelength ∧
    ec_signature_bytes p256 [List.replicate 32 0, List.replicate 32 255] =
      some (List.replicate 32 0 ++ List.replicate 32 255) ∧
    (List.replicate 32 0 ++ List.replicate 32 255).length = 2 * p256.bytelength := by
  have h := (claim_C4_ec_signature_encoding p256 (Or.inl rfl)).2.1
    (List.replicate 32 0) (List.replicate 32 255) (by decide) (by decide)
  exact ⟨by decide, by decide, h.1, h.2⟩

/-- Claim C9: every state returned by `get_challenges` has challenge
records with pairwise-distinct domains in sorted order, and each record's
`keyauthorization` equals its (sanitized) token, a dot, and the account
thumbprint. -/
theorem claim_C9_get_challenges_invariants :
    ∀ (cn : Option String) (sans : List String) (thumbprint : String)
      (ca_token : String → String),
      ((get_challenges cn sans thumbprint ca_token).map ChallengeEntry.domain).Pairwise (· < ·) ∧
      ((get_challenges cn sans thumbprint ca_token).map ChallengeEntry.domain).Nodup ∧
      (∀ e, e ∈ get_challenges cn sans thumbprint ca_token →
        e.token = sanitize_token (ca_token e.domain) ∧
        e.keyauthorization = e.token ++ "." ++ thumbprint) := by
  intro cn sans tp f
  have hmap : (get_challenges cn sans tp f).map ChallengeEntry.domain = parse_csr cn sans := by
    unfold get_challenges
    rw [List.map_map]
    exact List.map_id' _
  refine ⟨hmap ▸ pairwise_parse_csr cn sans, hmap ▸ nodup_parse_csr cn sans, ?_⟩
  intro e he
  simp only [get_challenges, List.mem_map] at he
  obtain ⟨d, _, rfl⟩ := he
  exact ⟨rfl, rfl⟩

/-- Claim C9 witness: a single-domain session with a token that needs
sanitizing. -/
theorem claim_C9_get_challenges_invariants_witness :
    (⟨"example.com", "ab_c_d", "ab_c_d.TP"⟩ : ChallengeEntry) ∈
      get_challenges (some "example.com") ["DNS:example.com"] "TP" (fun _ => "ab+c/d") ∧
    (⟨"example.com", "ab_c_d", "ab_c_d.TP"⟩ : ChallengeEntry).token =
      sanitize_token ((fun _ : String => "ab+c/d") "example.com") ∧
    (⟨"example.com", "ab_c_d", "ab_c_d.TP"⟩ : ChallengeEntry).keyauthorization =
      (⟨"example.com", "ab_c_d", "ab_c_d.TP"⟩ : ChallengeEntry).token ++ "." ++ "TP" := by
  have hmem : (⟨"example.com", "ab_c_d", "ab_c_d.TP"⟩ : ChallengeEntry) ∈
      get_challenges (some "example.com") ["DNS:example.com"] "TP" (fun _ => "ab+c/d") := by
    decide
  have h := (claim_C9_get_challenges_invariants (some "example.com") ["DNS:example.com"]
    "TP" (fun _ => "ab+c/d")).2.2 _ hmem
  exact ⟨hmem, h.1, h.2⟩

/-- Claim C10: `check_challenge` never propagates a transport error — it
returns `False` on any `IOError` — and returns `True` exactly when the
fetched well-known body, stripped of leading and trailing whitespace,
equals the key authorization. -/
theorem claim_C10_check_challenge_total :
    ∀ (domain token keyauthorization : String) (fetch : String → Except String String),
      (∀ e, fetch (get_wellknown_url domain token) = .error e →
        check_challenge domain token fetch keyauthorization = false) ∧
      (check_challenge domain token fetch keyauthorization = true ↔
        ∃ body, fetch (get_wellknown_url domain token) = .ok body ∧
          pyStrip body = keyauthorization) := by
  intro d t k fetch
  constructor
  · intro e he
    simp [check_challenge, he]
  · cases hf : fetch (get_wellknown_url d t) with
    | ok body => simp [check_challenge, hf, beq_iff_eq]
    | error e => simp [check_challenge, hf]

/-- Claim C10 witness: a transport error yields `False`. -/
theorem claim_C10_check_challenge_total_witness :
    ((fun _ : String => (Except.error "connection refused" : Except String String))
        (get_wellknown_url "example.com" "tok") = .error "connection refused") ∧
    check_challenge "example.com" "tok" (fun _ => .error "connection refused") "tok.TP" =
      false :=
  ⟨rfl, (claim_C10_check_challenge_total "example.com" "tok" "tok.TP"
    (fun _ => .error "connection refused")).1 "connection refused" rfl⟩

/-- Claim C1: `serialize_state` cannot serialize any state produced by
`get_challenges`, because the state's `account_key_algorithm` entry holds
the `Algorithm` instance, which `json.dumps` rejects with `TypeError`;
the round trip `deserialize_state(serialize_state(s)) == s` therefore
fails for every such state (serialization raises instead of returning a
string). -/
theorem claim_C1_serialize_get_challenges_state_fails :
    ∀ (account_key_type account_key_algorithm account_key : String) (header : PyVal)
      (thumbprint CA : String) (challenges : List PyVal),
      serialize_state
        (get_challenges_state account_key_type account_key_algorithm account_key
          header thumbprint CA challenges) = none := by
  intro akt alg ak header tp ca challenges
  rfl

end AcmeCompact
